import Mathlib

set_option autoImplicit false

/-!
# S3FWRN5 I2C link layer and the software-node GPIO helpers

A shallow embedding of `drivers/nfc/s3fwrn5/i2c.c` and
`drivers/gpio/gpiolib-swnode.c`.

Every function of the driver is translated statement by statement.  Calls that
leave the two files (the I2C core, the socket-buffer allocator, the NCI upper
layer, the power sequencer of `phy_common.c`, the firmware-node property
layer, the GPIO core) are answered by an environment of oracles, and every
such call is appended to an event trace so that "performs no bus read" or
"invokes the callback exactly once" are statements about that trace.

C `int` values returned by external calls are integers within the `int`
range; the conversions that C applies when an `int` meets an unsigned operand
are written out (`to_unsigned`, `to_size_t`).
-/

namespace S3fwrn5

/-! ## Machine integers and constants -/

/-- One octet on the wire. -/
abbrev Byte := Fin 256

/-- Smallest value of a C int. -/
def INT_MIN : Int := -2147483648

/-- Largest value of a C int. -/
def INT_MAX : Int := 2147483647

/-- A value of C type int: an integer within the range of a 32-bit int. -/
abbrev CInt := { i : Int // -2147483648 ≤ i ∧ i ≤ 2147483647 }

/-- Conversion of an int to unsigned int, as the usual arithmetic conversions
perform it when an int is compared with an unsigned int. -/
def to_unsigned (i : Int) : Nat := (i % 4294967296).toNat

/-- Conversion of an int to size_t (64 bits wide), as performed when an int is
compared with a size_t. -/
def to_size_t (i : Int) : Nat := (i % 18446744073709551616).toNat

/-- Errno number of the remote I/O error; the value is that of the kernel's
errno tables, which are not part of the two files embedded here. -/
def EREMOTEIO : Int := 121

/-- Errno number of the bad message error (kernel errno tables). -/
def EBADMSG : Int := 74

/-- Errno number of the out of memory error (kernel errno tables). -/
def ENOMEM : Int := 12

/-- Operating mode of the chip, enum s3fwrn5_mode. -/
inductive s3fwrn5_mode
  | S3FWRN5_MODE_COLD
  | S3FWRN5_MODE_NCI
  | S3FWRN5_MODE_FW
  deriving DecidableEq, Repr

open s3fwrn5_mode

/-- Value handed back to the interrupt core. -/
inductive irqreturn_t
  | IRQ_NONE
  | IRQ_HANDLED
  deriving DecidableEq, Repr

/-- Modelled from the spec: `NCI_CTRL_HDR_SIZE`, declared in the NCI core
header which is not among the sources; the NCI control header is a fixed
3-byte structure. -/
def NCI_CTRL_HDR_SIZE : Nat := 3

/-- Modelled from the spec: `S3FWRN5_FW_HDR_SIZE`, declared in the firmware
header which is not among the sources; the firmware header has a fixed size of
4 bytes. -/
def S3FWRN5_FW_HDR_SIZE : Nat := 4

/-- Modelled from the spec: field `plen` of `struct nci_ctrl_hdr` (declared in
the NCI core header, not among the sources): the payload length is the last
byte of the 3-byte header. -/
def nci_ctrl_hdr_plen (hdr : List Byte) : Nat := (hdr.getD 2 0).val

/-! ## Driver state -/

/-- Modelled from the spec: `struct phy_common` (declared in `phy_common.h`,
not among the sources): the upper-layer handle, the two control lines and the
current mode.  The mutex is not a field: the embedding is sequential. -/
structure phy_common where
  ndev : Option Nat
  gpio_en : Nat
  gpio_fw_wake : Nat
  mode : s3fwrn5_mode
  deriving DecidableEq, Repr

/-- State of one device instance, struct s3fwrn5_i2c_phy. -/
structure s3fwrn5_i2c_phy where
  common : phy_common
  i2c_dev : Nat
  clk : Option Nat
  irq_skip : Bool
  deriving DecidableEq, Repr

/-- Socket buffer handed to the write path: skb->data, with skb->len its
length. -/
structure sk_buff where
  data : List Byte
  deriving DecidableEq, Repr

/-- Length of a socket buffer, skb->len. -/
def sk_buff.len (skb : sk_buff) : Nat := skb.data.length

/-! ## Environment and events -/

/-- Everything the driver calls outside its own file.

* `i2c_master_send k client buf` is the return value of the `k`-th
  transmission issued by one call of the write path;
* `i2c_master_recv k client count` is the return value of the `k`-th read
  issued by one call of the read path together with the bytes the bus stored;
* `alloc_skb size` tells whether the allocation succeeds;
* `s3fwrn5_recv_frame ndev frame mode` is the result of the upper-layer
  receive callback, which is handed the upper-layer device, the frame and the
  mode, not the instance state;
* `s3fwrn5_phy_power_ctrl common mode` is the power sequencer of
  `phy_common.c`: whether the transition succeeded and the common state it
  leaves;
* `fw_header_len hdr` is field `len` (16 bits) of struct s3fwrn5_fw_header
  read from the four header bytes; its declaration is not among the sources. -/
structure Env where
  i2c_master_send : Nat → Nat → List Byte → CInt
  i2c_master_recv : Nat → Nat → Nat → CInt × List Byte
  alloc_skb : Nat → Bool
  s3fwrn5_recv_frame : Option Nat → List Byte → s3fwrn5_mode → CInt
  s3fwrn5_phy_power_ctrl : phy_common → s3fwrn5_mode → Bool × phy_common
  fw_header_len : List Byte → Fin 65536

/-- One call that leaves the driver, with what it returned. -/
inductive Event
  | mutex_lock
  | mutex_unlock
  | WARN_ON_ONCE
  | usleep_range (min max : Nat)
  | i2c_master_send (buf : List Byte) (ret : Int)
  | i2c_master_recv (count : Nat) (ret : Int) (buf : List Byte)
  | alloc_skb (size : Nat) (ok : Bool)
  | kfree_skb
  | s3fwrn5_recv_frame (ndev : Option Nat) (frame : List Byte)
      (mode : s3fwrn5_mode) (ret : Int)
  | s3fwrn5_phy_power_ctrl (mode : s3fwrn5_mode) (ok : Bool)
  deriving DecidableEq, Repr

/-- The bus transmissions of a trace, in order: bytes sent and return value. -/
def busSends : List Event → List (List Byte × Int)
  | [] => []
  | Event.i2c_master_send buf ret :: es => (buf, ret) :: busSends es
  | _ :: es => busSends es

/-- The bus reads of a trace, in order: requested count, return value and the
content of the destination buffer after the read. -/
def busReads : List Event → List (Nat × Int × List Byte)
  | [] => []
  | Event.i2c_master_recv count ret buf :: es => (count, ret, buf) :: busReads es
  | _ :: es => busReads es

/-- The upper-layer callback invocations of a trace, in order: device handle,
frame and mode. -/
def deliveries : List Event → List (Option Nat × List Byte × s3fwrn5_mode)
  | [] => []
  | Event.s3fwrn5_recv_frame ndev frame mode _ :: es =>
      (ndev, frame, mode) :: deliveries es
  | _ :: es => deliveries es

/-- Content of a destination buffer of `count` bytes after the bus stored
`stored` into it: the first `count` stored bytes; a position the bus left
unwritten reads as 0. -/
def fill (count : Nat) (stored : List Byte) : List Byte :=
  (stored ++ List.replicate count 0).take count

/-! ## The driver functions -/

/-- Result of `s3fwrn5_i2c_set_mode`: the state left and the calls made. -/
structure SetModeResult where
  phy : s3fwrn5_i2c_phy
  trace : List Event
  deriving DecidableEq, Repr

/-- The set mode operation, s3fwrn5_i2c_set_mode. -/
def s3fwrn5_i2c_set_mode (env : Env) (phy : s3fwrn5_i2c_phy)
    (mode : s3fwrn5_mode) : SetModeResult :=
  let r := env.s3fwrn5_phy_power_ctrl phy.common mode
  let phy1 : s3fwrn5_i2c_phy := { phy with common := r.2 }
  if r.1 = false then
    { phy := phy1
      trace := [Event.mutex_lock, Event.s3fwrn5_phy_power_ctrl mode false,
                Event.mutex_unlock] }
  else
    { phy := { phy1 with irq_skip := true }
      trace := [Event.mutex_lock, Event.s3fwrn5_phy_power_ctrl mode true,
                Event.mutex_unlock] }

/-- Result of `s3fwrn5_i2c_write`: return value, state left, calls made. -/
structure WriteResult where
  ret : Int
  phy : s3fwrn5_i2c_phy
  trace : List Event
  deriving DecidableEq, Repr

/-- The tail of the write path after the mutex is released: maps the return
value of the last transmission to the function's return value. -/
def s3fwrn5_i2c_write_status (ret : Int) (len : Nat) : Int :=
  if ret < 0 then ret
  else if to_unsigned ret ≠ len then - EREMOTEIO
  else 0

/-- The write operation, s3fwrn5_i2c_write. -/
def s3fwrn5_i2c_write (env : Env) (phy : s3fwrn5_i2c_phy) (skb : sk_buff) :
    WriteResult :=
  let phy1 : s3fwrn5_i2c_phy := { phy with irq_skip := false }
  let ret0 : Int := (env.i2c_master_send 0 phy1.i2c_dev skb.data).val
  if ret0 = - EREMOTEIO then
    let ret1 : Int := (env.i2c_master_send 1 phy1.i2c_dev skb.data).val
    { ret := s3fwrn5_i2c_write_status ret1 skb.len
      phy := phy1
      trace := [Event.mutex_lock, Event.i2c_master_send skb.data ret0,
                Event.usleep_range 110000 120000,
                Event.i2c_master_send skb.data ret1, Event.mutex_unlock] }
  else
    { ret := s3fwrn5_i2c_write_status ret0 skb.len
      phy := phy1
      trace := [Event.mutex_lock, Event.i2c_master_send skb.data ret0,
                Event.mutex_unlock] }

/-- Result of `s3fwrn5_i2c_read`: return value and calls made. -/
structure ReadResult where
  ret : Int
  trace : List Event
  deriving DecidableEq, Repr

/-- Header size selected by the mode: the NCI size in NCI mode, the firmware
size in every other mode. -/
def hdr_size (mode : s3fwrn5_mode) : Nat :=
  if mode = S3FWRN5_MODE_NCI then NCI_CTRL_HDR_SIZE else S3FWRN5_FW_HDR_SIZE

/-- Payload length read from the header: `plen` in NCI mode, the firmware
header's `len` in every other mode. -/
def data_len (env : Env) (mode : s3fwrn5_mode) (hdr : List Byte) : Nat :=
  if mode = S3FWRN5_MODE_NCI then nci_ctrl_hdr_plen hdr
  else (env.fw_header_len hdr).val

/-- The receive operation, s3fwrn5_i2c_read. -/
def s3fwrn5_i2c_read (env : Env) (phy : s3fwrn5_i2c_phy) : ReadResult :=
  let mode := phy.common.mode
  let r0 := env.i2c_master_recv 0 phy.i2c_dev (hdr_size mode)
  let ret0 : Int := r0.1.val
  let hdr := fill (hdr_size mode) r0.2
  let e0 := Event.i2c_master_recv (hdr_size mode) ret0 hdr
  if ret0 < 0 then
    { ret := ret0, trace := [e0] }
  else if to_size_t ret0 < hdr_size mode then
    { ret := -EBADMSG, trace := [e0] }
  else
    let len := data_len env mode hdr
    let size := hdr_size mode + len
    if env.alloc_skb size = false then
      { ret := -ENOMEM, trace := [e0, Event.alloc_skb size false] }
    else if len = 0 then
      let res : Int := (env.s3fwrn5_recv_frame phy.common.ndev hdr mode).val
      { ret := res
        trace := [e0, Event.alloc_skb size true,
                  Event.s3fwrn5_recv_frame phy.common.ndev hdr mode res] }
    else
      let r1 := env.i2c_master_recv 1 phy.i2c_dev len
      let ret1 : Int := r1.1.val
      let payload := fill len r1.2
      let e1 := Event.i2c_master_recv len ret1 payload
      if to_size_t ret1 ≠ len then
        { ret := -EBADMSG
          trace := [e0, Event.alloc_skb size true, e1, Event.kfree_skb] }
      else
        let frame := hdr ++ payload
        let res : Int := (env.s3fwrn5_recv_frame phy.common.ndev frame mode).val
        { ret := res
          trace := [e0, Event.alloc_skb size true, e1,
                    Event.s3fwrn5_recv_frame phy.common.ndev frame mode res] }

/-- Return value of the header read that the read path issues. -/
def hdr_ret (env : Env) (phy : s3fwrn5_i2c_phy) : Int :=
  (env.i2c_master_recv 0 phy.i2c_dev (hdr_size phy.common.mode)).1.val

/-- Content of the header buffer after the header read. -/
def hdr_buf (env : Env) (phy : s3fwrn5_i2c_phy) : List Byte :=
  fill (hdr_size phy.common.mode)
    (env.i2c_master_recv 0 phy.i2c_dev (hdr_size phy.common.mode)).2

/-- Payload length that the header buffer announces. -/
def payload_len (env : Env) (phy : s3fwrn5_i2c_phy) : Nat :=
  data_len env phy.common.mode (hdr_buf env phy)

/-- Return value of the payload read, when the read path issues it. -/
def payload_ret (env : Env) (phy : s3fwrn5_i2c_phy) : Int :=
  (env.i2c_master_recv 1 phy.i2c_dev (payload_len env phy)).1.val

/-- Content of the payload area after the payload read. -/
def payload_buf (env : Env) (phy : s3fwrn5_i2c_phy) : List Byte :=
  fill (payload_len env phy)
    (env.i2c_master_recv 1 phy.i2c_dev (payload_len env phy)).2

/-- Result of the interrupt thread function: value reported to the interrupt
core, state left (if there is a device instance), calls made. -/
structure IrqResult where
  ret : irqreturn_t
  phy : Option s3fwrn5_i2c_phy
  trace : List Event
  deriving DecidableEq, Repr

/-- The interrupt dispatcher, s3fwrn5_i2c_irq_thread_fn. -/
def s3fwrn5_i2c_irq_thread_fn (env : Env) (phy_id : Option s3fwrn5_i2c_phy) :
    IrqResult :=
  match phy_id with
  | none => { ret := irqreturn_t.IRQ_NONE, phy := none, trace := [Event.WARN_ON_ONCE] }
  | some phy =>
    if phy.common.ndev = none then
      { ret := irqreturn_t.IRQ_NONE, phy := some phy, trace := [Event.WARN_ON_ONCE] }
    else if phy.irq_skip = true then
      { ret := irqreturn_t.IRQ_HANDLED, phy := some phy
        trace := [Event.mutex_lock, Event.mutex_unlock] }
    else
      match phy.common.mode with
      | S3FWRN5_MODE_NCI =>
        { ret := irqreturn_t.IRQ_HANDLED, phy := some phy
          trace := Event.mutex_lock :: (s3fwrn5_i2c_read env phy).trace
                     ++ [Event.mutex_unlock] }
      | S3FWRN5_MODE_FW =>
        { ret := irqreturn_t.IRQ_HANDLED, phy := some phy
          trace := Event.mutex_lock :: (s3fwrn5_i2c_read env phy).trace
                     ++ [Event.mutex_unlock] }
      | S3FWRN5_MODE_COLD =>
        { ret := irqreturn_t.IRQ_HANDLED, phy := some phy
          trace := [Event.mutex_lock, Event.mutex_unlock] }

/-! ## Concrete environments used to exercise the embedding -/

/-- A power sequencer as `phy_common.c` has it: refuses a transition to the
mode the chip is already in, otherwise records the new mode. -/
def power_ctrl_example (common : phy_common) (mode : s3fwrn5_mode) :
    Bool × phy_common :=
  if common.mode = mode then (false, common)
  else (true, { common with mode := mode })

/-- A firmware header length field laid out as a little-endian 16-bit value in
bytes 2 and 3. -/
def fw_header_len_example (hdr : List Byte) : Fin 65536 :=
  Fin.ofNat ((hdr.getD 2 0).val + 256 * (hdr.getD 3 0).val)

/-- A bus on which every transfer completes in full: a transmission returns
3, the header read returns the NCI header `60 00 05`, the payload read returns
five bytes; allocation succeeds and the upper layer accepts the frame. -/
def env_ok : Env where
  i2c_master_send := fun _ _ _ => ⟨3, by decide⟩
  i2c_master_recv := fun k _ _ =>
    if k = 0 then (⟨3, by decide⟩, [0x60, 0x00, 0x05])
    else (⟨5, by decide⟩, [1, 2, 3, 4, 5])
  alloc_skb := fun _ => true
  s3fwrn5_recv_frame := fun _ _ _ => ⟨0, by decide⟩
  s3fwrn5_phy_power_ctrl := power_ctrl_example
  fw_header_len := fw_header_len_example

/-- As `env_ok`, but the payload read is cut short: it returns 2 of the 5
bytes the header announced. -/
def env_short : Env :=
  { env_ok with
    i2c_master_recv := fun k _ _ =>
      if k = 0 then (⟨3, by decide⟩, [0x60, 0x00, 0x05])
      else (⟨2, by decide⟩, [1, 2]) }

/-- A bus that reads the header-only NCI frame `40 01 00`, with an allocator
that is out of memory. -/
def env_nomem : Env :=
  { env_ok with
    i2c_master_recv := fun _ _ _ => (⟨3, by decide⟩, [0x40, 0x01, 0x00])
    alloc_skb := fun _ => false }

/-- As `env_nomem`, with an allocator that succeeds. -/
def env_header_only : Env :=
  { env_ok with
    i2c_master_recv := fun _ _ _ => (⟨3, by decide⟩, [0x40, 0x01, 0x00]) }

/-- A bus whose first transmission fails with the remote I/O error and whose
second transmission sends all three bytes. -/
def env_standby : Env :=
  { env_ok with
    i2c_master_send := fun k _ _ =>
      if k = 0 then ⟨-121, by decide⟩ else ⟨3, by decide⟩ }

/-- A device instance in NCI mode with the suppress flag set. -/
def phy_nci : s3fwrn5_i2c_phy :=
  { common := { ndev := some 1, gpio_en := 0, gpio_fw_wake := 0,
                mode := S3FWRN5_MODE_NCI }
    i2c_dev := 7
    clk := none
    irq_skip := true }

/-- A device instance as the probe function leaves it: cold, suppress flag
set. -/
def phy_cold : s3fwrn5_i2c_phy :=
  { common := { ndev := some 1, gpio_en := 0, gpio_fw_wake := 0,
                mode := S3FWRN5_MODE_COLD }
    i2c_dev := 7
    clk := none
    irq_skip := true }

/-- A three-byte frame. -/
def skb_example : sk_buff := { data := [0x20, 0x00, 0x00] }

end S3fwrn5

namespace GpioSwnode

open S3fwrn5 (CInt INT_MAX INT_MIN)

/-! ## Software-node GPIO lookup: data model -/

/-- Errno number of the invalid argument error (kernel errno tables, not part
of the two files embedded here). -/
def EINVAL : Int := 22

/-- Errno number of the no such entry error (kernel errno tables). -/
def ENOENT : Int := 2

/-- Errno number of the deferred probe error (kernel errno tables). -/
def EPROBE_DEFER : Int := 517

/-- Modelled from the spec: `struct software_node` (declared in the property
header, not among the sources): a description of a logical device that may
carry a name. -/
structure software_node where
  name : Option String
  deriving DecidableEq, Repr

/-- Modelled from the spec: `struct fwnode_handle` (declared in the firmware
node header, not among the sources): a node is either described by a software
node or discovered from firmware tables. -/
inductive fwnode_handle
  | software (node : software_node)
  | firmware (id : Nat)
  deriving DecidableEq, Repr

/-- Modelled from the spec: `to_software_node` (defined in the software node
core, not among the sources): the software node behind a handle, nothing for
a null handle or for a handle that is not a software node. -/
def to_software_node : Option fwnode_handle → Option software_node
  | some (fwnode_handle.software node) => some node
  | _ => none

/-- Modelled from the spec: `struct fwnode_reference_args` (declared in the
firmware node header, not among the sources): the referenced node and the
argument values that follow the reference, by position. -/
structure fwnode_reference_args where
  fwnode : Option fwnode_handle
  nargs : Nat
  args : Nat → Nat

/-- Modelled from the spec: `struct gpio_chip` (declared in the GPIO driver
header, not among the sources): a registered line provider, known by its
label. -/
structure gpio_chip where
  label : String
  id : Nat
  deriving DecidableEq, Repr

/-- A line of a provider chip, struct gpio_desc. -/
structure gpio_desc where
  chip : gpio_chip
  hwnum : Nat
  deriving DecidableEq, Repr

/-- A returned `struct gpio_desc *`: a descriptor, or an error number wrapped
by `ERR_PTR`. -/
inductive DescPtr
  | desc (d : gpio_desc)
  | ERR_PTR (error : Int)
  deriving DecidableEq, Repr

/-- Everything the two functions call outside their file.

* `fwnode_property_get_reference_args fwnode prop nargs index` is the return
  value of the property layer (0 on success) and the arguments it stored;
* `chips` are the registered providers in the order `gpiochip_find` visits
  them;
* `gpiochip_get_desc chip hwnum` is the GPIO core's descriptor lookup. -/
structure Env where
  fwnode_property_get_reference_args :
    Option fwnode_handle → String → Nat → Nat → CInt × fwnode_reference_args
  chips : List gpio_chip
  gpiochip_get_desc : gpio_chip → Nat → DescPtr

/-- Modelled from the spec: `gpiochip_find` (defined in the GPIO core, not
among the sources): the first registered provider on which the match callback
returns non-zero. -/
def gpiochip_find (env : Env) (data : String)
    (fn : gpio_chip → String → Int) : Option gpio_chip :=
  env.chips.find? (fun chip => decide (fn chip data ≠ 0))

/-! ## The two functions -/

/-- The match callback, swnode_gpiochip_match_name: `!strcmp(label, data)`. -/
def swnode_gpiochip_match_name (chip : gpio_chip) (data : String) : Int :=
  if chip.label = data then 1 else 0

/-- The property name both functions build in a 32-byte buffer: the function
name followed by "-gpios", cut to 31 characters by `snprintf`, or "gpios" when
no function name is given.  Characters are taken to be single bytes. -/
def prop_name (con_id : Option String) : String :=
  match con_id with
  | some id => String.mk ((id.data ++ "-gpios".data).take 31)
  | none => "gpios"

/-- Result of `swnode_find_gpio`: the returned pointer and the content of
`*flags` after the call. -/
structure FindResult where
  ret : DescPtr
  flags : Nat
  deriving DecidableEq, Repr

/-- The line lookup, swnode_find_gpio; `flags` is the content of `*flags`
before the call. -/
def swnode_find_gpio (env : Env) (fwnode : Option fwnode_handle)
    (con_id : Option String) (idx : Nat) (flags : Nat) : FindResult :=
  match to_software_node fwnode with
  | none => { ret := DescPtr.ERR_PTR (-EINVAL), flags := flags }
  | some _ =>
    let r := env.fwnode_property_get_reference_args fwnode (prop_name con_id) 2 idx
    let error : Int := r.1.val
    if error ≠ 0 then
      { ret := DescPtr.ERR_PTR error, flags := flags }
    else
      match to_software_node r.2.fwnode with
      | none => { ret := DescPtr.ERR_PTR (-EINVAL), flags := flags }
      | some chip_node =>
        match chip_node.name with
        | none => { ret := DescPtr.ERR_PTR (-EINVAL), flags := flags }
        | some name =>
          match gpiochip_find env name swnode_gpiochip_match_name with
          | none => { ret := DescPtr.ERR_PTR (-EPROBE_DEFER), flags := flags }
          | some chip =>
            { ret := env.gpiochip_get_desc chip (r.2.args 0)
              flags := r.2.args 1 }

/-- How a run of the counting loop ends: the loop left with a final count, the
increment of `count` overflowed the int range, or the fuel of the embedding
ran out while every probed index still resolved. -/
inductive LoopEnd
  | done (count : Nat)
  | overflow
  | out_of_fuel
  deriving DecidableEq, Repr

/-- The `while` loop of `swnode_gpio_count`, started at `count`: the way it
ends and the lookups made, in order, each as property name, number of
arguments asked for and index. -/
def swnode_gpio_count_loop (env : Env) (fwnode : Option fwnode_handle)
    (prop : String) : Nat → Nat → LoopEnd × List (String × Nat × Nat)
  | 0, _ => (LoopEnd.out_of_fuel, [])
  | fuel + 1, count =>
    if (env.fwnode_property_get_reference_args fwnode prop 0 count).1.val = 0 then
      if (count : Int) = INT_MAX then (LoopEnd.overflow, [(prop, 0, count)])
      else
        let r := swnode_gpio_count_loop env fwnode prop fuel (count + 1)
        (r.1, (prop, 0, count) :: r.2)
    else (LoopEnd.done count, [(prop, 0, count)])

/-- Result of `swnode_gpio_count`: the return value (nothing when the loop
does not return) and the lookups made, in order. -/
structure CountResult where
  ret : Option Int
  probes : List (String × Nat × Nat)
  deriving DecidableEq, Repr

/-- The line count, swnode_gpio_count, run with the given fuel. -/
def swnode_gpio_count (env : Env) (fwnode : Option fwnode_handle)
    (con_id : Option String) (fuel : Nat) : CountResult :=
  let r := swnode_gpio_count_loop env fwnode (prop_name con_id) fuel 0
  match r.1 with
  | LoopEnd.done count =>
    { ret := some (if count ≠ 0 then (count : Int) else - ENOENT), probes := r.2 }
  | _ => { ret := none, probes := r.2 }

/-! ## A concrete description used to exercise the embedding -/

/-- A registered provider labelled "gpio-a". -/
def chip_a : gpio_chip := { label := "gpio-a", id := 0 }

/-- The software node that describes the provider "gpio-a". -/
def node_a : fwnode_handle := fwnode_handle.software { name := some "gpio-a" }

/-- The software node of a consumer device. -/
def consumer : fwnode_handle := fwnode_handle.software { name := some "nfc" }

/-- A property layer in which the consumer's "wake-gpios" property lists two
references to "gpio-a": line 5 with flags 1 and line 6 with flags 0.  Every
other lookup fails with the no such entry error. -/
def get_reference_args_example (fwnode : Option fwnode_handle) (prop : String)
    (nargs : Nat) (index : Nat) : CInt × fwnode_reference_args :=
  if fwnode = some consumer ∧ prop = "wake-gpios" ∧ index < 2 then
    (⟨0, by decide⟩,
     { fwnode := some node_a, nargs := nargs,
       args := fun i => if i = 0 then 5 + index else 1 - index })
  else
    (⟨-2, by decide⟩, { fwnode := none, nargs := 0, args := fun _ => 0 })

/-- An environment with the provider "gpio-a" registered and a GPIO core that
hands out every line asked for. -/
def env_example : Env where
  fwnode_property_get_reference_args := get_reference_args_example
  chips := [chip_a]
  gpiochip_get_desc := fun chip hwnum => DescPtr.desc { chip := chip, hwnum := hwnum }

end GpioSwnode

/-! # Properties of the I2C link layer -/

namespace S3fwrn5

open s3fwrn5_mode

/-! ## Auxiliary facts -/

theorem busReads_append (l₁ l₂ : List Event) :
    busReads (l₁ ++ l₂) = busReads l₁ ++ busReads l₂ := by
  induction l₁ with
  | nil => rfl
  | cons e es ih => cases e <;> simp [busReads, ih]

theorem busSends_append (l₁ l₂ : List Event) :
    busSends (l₁ ++ l₂) = busSends l₁ ++ busSends l₂ := by
  induction l₁ with
  | nil => rfl
  | cons e es ih => cases e <;> simp [busSends, ih]

theorem deliveries_append (l₁ l₂ : List Event) :
    deliveries (l₁ ++ l₂) = deliveries l₁ ++ deliveries l₂ := by
  induction l₁ with
  | nil => rfl
  | cons e es ih => cases e <;> simp [deliveries, ih]

theorem fill_length (count : Nat) (stored : List Byte) :
    (fill count stored).length = count := by
  simp [fill]

theorem cint_range (r : CInt) : -2147483648 ≤ r.val ∧ r.val ≤ 2147483647 :=
  r.property

theorem hdr_size_le (mode : s3fwrn5_mode) : hdr_size mode ≤ 4 := by
  unfold hdr_size NCI_CTRL_HDR_SIZE S3FWRN5_FW_HDR_SIZE
  split <;> omega

theorem data_len_lt (env : Env) (mode : s3fwrn5_mode) (hdr : List Byte) :
    data_len env mode hdr < 65536 := by
  unfold data_len nci_ctrl_hdr_plen
  split
  · have := (hdr.getD 2 0).isLt
    omega
  · exact (env.fw_header_len hdr).isLt

/-- For an int compared with a size_t below 2^16, the C comparison after
conversion agrees with the comparison of the values. -/
theorem to_size_t_eq_iff (r : CInt) (n : Nat) (hn : n < 65536) :
    to_size_t r.val = n ↔ r.val = (n : Int) := by
  have h := cint_range r
  unfold to_size_t
  omega

/-- For a non-negative int compared with a size_t, the C comparison after
conversion agrees with the comparison of the values. -/
theorem to_size_t_lt_iff (r : CInt) (n : Nat) (h0 : 0 ≤ r.val) :
    to_size_t r.val < n ↔ r.val < (n : Int) := by
  have h := cint_range r
  unfold to_size_t
  omega

/-- The return value of the write path, by the return value of the last
transmission. -/
theorem write_status_spec (r : CInt) (n : Nat) :
    (s3fwrn5_i2c_write_status r.val n = 0 ↔ r.val = (n : Int)) ∧
    (r.val < 0 → s3fwrn5_i2c_write_status r.val n = r.val) ∧
    (0 ≤ r.val → r.val ≠ (n : Int) →
      s3fwrn5_i2c_write_status r.val n = - EREMOTEIO) ∧
    s3fwrn5_i2c_write_status r.val n ≤ 0 := by
  have h := cint_range r
  unfold s3fwrn5_i2c_write_status to_unsigned EREMOTEIO
  refine ⟨?_, ?_, ?_, ?_⟩
  · split_ifs
    · omega
    · simp only [false_iff]
      omega
    · omega
  · intro hneg; simp [hneg]
  · intro h0 hne
    split_ifs <;> omega
  · split_ifs <;> omega

/-- The read path always starts with the header read. -/
theorem read_trace_head (env : Env) (phy : s3fwrn5_i2c_phy) :
    ∃ rest, (s3fwrn5_i2c_read env phy).trace =
      Event.i2c_master_recv (hdr_size phy.common.mode)
        (env.i2c_master_recv 0 phy.i2c_dev (hdr_size phy.common.mode)).1.val
        (fill (hdr_size phy.common.mode)
          (env.i2c_master_recv 0 phy.i2c_dev (hdr_size phy.common.mode)).2)
        :: rest := by
  unfold s3fwrn5_i2c_read
  dsimp only
  split_ifs <;> exact ⟨_, rfl⟩

theorem read_busReads_ne_nil (env : Env) (phy : s3fwrn5_i2c_phy) :
    busReads (s3fwrn5_i2c_read env phy).trace ≠ [] := by
  obtain ⟨rest, h⟩ := read_trace_head env phy
  rw [h]
  simp [busReads]

/-- The interrupt dispatcher with the device instance and its upper-layer
handle present: what it returns, the state it leaves and the calls it
makes. -/
theorem irq_thread_fn_cases (env : Env) (phy : s3fwrn5_i2c_phy)
    (hndev : phy.common.ndev ≠ none) :
    (s3fwrn5_i2c_irq_thread_fn env (some phy)).ret = irqreturn_t.IRQ_HANDLED ∧
    (s3fwrn5_i2c_irq_thread_fn env (some phy)).phy = some phy ∧
    (phy.irq_skip = false ∧
        (phy.common.mode = S3FWRN5_MODE_FW ∨ phy.common.mode = S3FWRN5_MODE_NCI) →
      (s3fwrn5_i2c_irq_thread_fn env (some phy)).trace =
        Event.mutex_lock :: (s3fwrn5_i2c_read env phy).trace
          ++ [Event.mutex_unlock]) ∧
    (phy.irq_skip = true ∨ phy.common.mode = S3FWRN5_MODE_COLD →
      busReads (s3fwrn5_i2c_irq_thread_fn env (some phy)).trace = [] ∧
      deliveries (s3fwrn5_i2c_irq_thread_fn env (some phy)).trace = []) ∧
    (busReads (s3fwrn5_i2c_irq_thread_fn env (some phy)).trace ≠ [] ↔
      phy.irq_skip = false ∧
        (phy.common.mode = S3FWRN5_MODE_FW ∨ phy.common.mode = S3FWRN5_MODE_NCI)) := by
  have hread := read_busReads_ne_nil env phy
  unfold s3fwrn5_i2c_irq_thread_fn
  simp only [if_neg hndev]
  cases hskip : phy.irq_skip <;> cases hmode : phy.common.mode <;>
    simp [busReads, deliveries, busReads_append, hread]

/-! ## Write path -/

/-- C2: the write path issues two transmissions of the same bytes when the
first one returns the remote I/O error and one transmission for every other
first result; it never issues a third, and a first error other than the remote
I/O error is returned unchanged. -/
theorem write_retries_once_on_remote_io (env : Env) (phy : s3fwrn5_i2c_phy)
    (skb : sk_buff) :
    ((env.i2c_master_send 0 phy.i2c_dev skb.data).val = - EREMOTEIO →
      busSends (s3fwrn5_i2c_write env phy skb).trace =
        [(skb.data, (env.i2c_master_send 0 phy.i2c_dev skb.data).val),
         (skb.data, (env.i2c_master_send 1 phy.i2c_dev skb.data).val)]) ∧
    ((env.i2c_master_send 0 phy.i2c_dev skb.data).val ≠ - EREMOTEIO →
      busSends (s3fwrn5_i2c_write env phy skb).trace =
        [(skb.data, (env.i2c_master_send 0 phy.i2c_dev skb.data).val)]) ∧
    (busSends (s3fwrn5_i2c_write env phy skb).trace).length ≤ 2 ∧
    ((env.i2c_master_send 0 phy.i2c_dev skb.data).val < 0 →
      (env.i2c_master_send 0 phy.i2c_dev skb.data).val ≠ - EREMOTEIO →
      (s3fwrn5_i2c_write env phy skb).ret =
        (env.i2c_master_send 0 phy.i2c_dev skb.data).val) := by
  unfold s3fwrn5_i2c_write
  dsimp only
  refine ⟨?_, ?_, ?_, ?_⟩
  · intro h
    rw [if_pos h]
    simp [busSends]
  · intro h
    rw [if_neg h]
    simp [busSends]
  · split_ifs <;> simp [busSends]
  · intro hneg h
    rw [if_neg h]
    exact (write_status_spec _ skb.len).2.1 hneg

/-- Witness for C2 on a bus whose first transmission reports the remote I/O
error: two transmissions of the same three bytes. -/
theorem write_retries_once_on_remote_io_witness :
    busSends (s3fwrn5_i2c_write env_standby phy_nci skb_example).trace =
      [([0x20, 0x00, 0x00], -121), ([0x20, 0x00, 0x00], 3)] :=
  (write_retries_once_on_remote_io env_standby phy_nci skb_example).1 (by decide)

/-- C3: the write path returns 0 exactly when its last transmission returned
the frame length; a negative result of the last transmission is returned as
it is; a non-negative result different from the frame length gives the remote
I/O error; the return value is never positive. -/
theorem write_return_value (env : Env) (phy : s3fwrn5_i2c_phy) (skb : sk_buff) :
    ∃ r : Int,
      (busSends (s3fwrn5_i2c_write env phy skb).trace).getLast? =
        some (skb.data, r) ∧
      ((s3fwrn5_i2c_write env phy skb).ret = 0 ↔ r = (skb.len : Int)) ∧
      (r < 0 → (s3fwrn5_i2c_write env phy skb).ret = r) ∧
      (0 ≤ r → r ≠ (skb.len : Int) →
        (s3fwrn5_i2c_write env phy skb).ret = - EREMOTEIO) ∧
      (s3fwrn5_i2c_write env phy skb).ret ≤ 0 := by
  unfold s3fwrn5_i2c_write
  dsimp only
  split_ifs with h
  · exact ⟨_, by simp [busSends], write_status_spec _ skb.len⟩
  · exact ⟨_, by simp [busSends], write_status_spec _ skb.len⟩

/-- C1 fails: on a device in NCI mode, after a write the suppress flag is
false and the interrupt that follows performs a bus read and invokes the
upper-layer callback. -/
theorem write_then_irq_reads :
    (s3fwrn5_i2c_write env_ok phy_nci skb_example).phy.irq_skip = false ∧
    busReads (s3fwrn5_i2c_irq_thread_fn env_ok
      (some (s3fwrn5_i2c_write env_ok phy_nci skb_example).phy)).trace ≠ [] ∧
    deliveries (s3fwrn5_i2c_irq_thread_fn env_ok
      (some (s3fwrn5_i2c_write env_ok phy_nci skb_example).phy)).trace ≠ [] := by
  decide

/-! ## Interrupt dispatcher -/

/-- C7: with the device instance and its upper-layer handle present, the
dispatcher runs the read path exactly when the suppress flag is false and the
mode is firmware or NCI; otherwise it performs no bus read and no callback; it
leaves the state as it found it and reports the interrupt as handled. -/
theorem irq_thread_fn_dispatch (env : Env) (phy : s3fwrn5_i2c_phy)
    (hndev : phy.common.ndev ≠ none) :
    (s3fwrn5_i2c_irq_thread_fn env (some phy)).ret = irqreturn_t.IRQ_HANDLED ∧
    (s3fwrn5_i2c_irq_thread_fn env (some phy)).phy = some phy ∧
    (phy.irq_skip = false ∧
        (phy.common.mode = S3FWRN5_MODE_FW ∨ phy.common.mode = S3FWRN5_MODE_NCI) →
      (s3fwrn5_i2c_irq_thread_fn env (some phy)).trace =
        Event.mutex_lock :: (s3fwrn5_i2c_read env phy).trace
          ++ [Event.mutex_unlock]) ∧
    (phy.irq_skip = true ∨ phy.common.mode = S3FWRN5_MODE_COLD →
      busReads (s3fwrn5_i2c_irq_thread_fn env (some phy)).trace = [] ∧
      deliveries (s3fwrn5_i2c_irq_thread_fn env (some phy)).trace = []) ∧
    (busReads (s3fwrn5_i2c_irq_thread_fn env (some phy)).trace ≠ [] ↔
      phy.irq_skip = false ∧
        (phy.common.mode = S3FWRN5_MODE_FW ∨ phy.common.mode = S3FWRN5_MODE_NCI)) :=
  irq_thread_fn_cases env phy hndev

/-- Witness for C7: a device in NCI mode with the suppress flag set. -/
theorem irq_thread_fn_dispatch_witness :
    (s3fwrn5_i2c_irq_thread_fn env_ok (some phy_nci)).ret = irqreturn_t.IRQ_HANDLED ∧
    busReads (s3fwrn5_i2c_irq_thread_fn env_ok (some phy_nci)).trace = [] :=
  ⟨(irq_thread_fn_dispatch env_ok phy_nci (by decide)).1,
   ((irq_thread_fn_dispatch env_ok phy_nci (by decide)).2.2.2.1
      (Or.inl (by decide))).1⟩

/-- C1, as the code has it: the write path leaves the suppress flag false and
the rest of the state untouched, so the interrupt that follows (with the
device instance and its upper-layer handle present) runs the read path exactly
when the mode is firmware or NCI, and performs no bus read and no callback in
cold mode. -/
theorem write_clears_irq_skip (env env' : Env) (phy : s3fwrn5_i2c_phy)
    (skb : sk_buff) (hndev : phy.common.ndev ≠ none) :
    (s3fwrn5_i2c_write env phy skb).phy = { phy with irq_skip := false } ∧
    (phy.common.mode = S3FWRN5_MODE_FW ∨ phy.common.mode = S3FWRN5_MODE_NCI →
      (s3fwrn5_i2c_irq_thread_fn env'
          (some (s3fwrn5_i2c_write env phy skb).phy)).trace =
        Event.mutex_lock ::
          (s3fwrn5_i2c_read env' (s3fwrn5_i2c_write env phy skb).phy).trace
          ++ [Event.mutex_unlock]) ∧
    (busReads (s3fwrn5_i2c_irq_thread_fn env'
        (some (s3fwrn5_i2c_write env phy skb).phy)).trace ≠ [] ↔
      phy.common.mode = S3FWRN5_MODE_FW ∨ phy.common.mode = S3FWRN5_MODE_NCI) ∧
    (phy.common.mode = S3FWRN5_MODE_COLD →
      busReads (s3fwrn5_i2c_irq_thread_fn env'
        (some (s3fwrn5_i2c_write env phy skb).phy)).trace = [] ∧
      deliveries (s3fwrn5_i2c_irq_thread_fn env'
        (some (s3fwrn5_i2c_write env phy skb).phy)).trace = []) := by
  have hphy : (s3fwrn5_i2c_write env phy skb).phy = { phy with irq_skip := false } := by
    unfold s3fwrn5_i2c_write
    dsimp only
    split_ifs <;> rfl
  rw [hphy]
  have hd := irq_thread_fn_cases env' { phy with irq_skip := false } hndev
  refine ⟨rfl, ?_, ?_, ?_⟩
  · intro hmode
    exact hd.2.2.1 ⟨rfl, hmode⟩
  · rw [hd.2.2.2.2]
    simp
  · intro hmode
    exact hd.2.2.2.1 (Or.inr hmode)

/-- Witness for the amended C1: a device in NCI mode. -/
theorem write_clears_irq_skip_witness :
    (s3fwrn5_i2c_write env_ok phy_nci skb_example).phy =
      { phy_nci with irq_skip := false } :=
  (write_clears_irq_skip env_ok env_ok phy_nci skb_example (by decide)).1

/-! ## Mode changes -/

/-- C8: the set mode operation sets the suppress flag when the power sequence
reports success and leaves it as it was when the power sequence reports
failure; it performs no bus transaction. -/
theorem set_mode_irq_skip (env : Env) (phy : s3fwrn5_i2c_phy)
    (mode : s3fwrn5_mode) :
    ((env.s3fwrn5_phy_power_ctrl phy.common mode).1 = true →
      (s3fwrn5_i2c_set_mode env phy mode).phy.irq_skip = true) ∧
    ((env.s3fwrn5_phy_power_ctrl phy.common mode).1 = false →
      (s3fwrn5_i2c_set_mode env phy mode).phy.irq_skip = phy.irq_skip) ∧
    busSends (s3fwrn5_i2c_set_mode env phy mode).trace = [] ∧
    busReads (s3fwrn5_i2c_set_mode env phy mode).trace = [] := by
  unfold s3fwrn5_i2c_set_mode
  dsimp only
  cases h : (env.s3fwrn5_phy_power_ctrl phy.common mode).1 <;>
    simp [busSends, busReads]

/-- Witness for C8: on a device whose suppress flag is clear, a successful
change to firmware mode sets the flag. -/
theorem set_mode_irq_skip_witness :
    (s3fwrn5_i2c_set_mode env_ok { phy_cold with irq_skip := false }
      S3FWRN5_MODE_FW).phy.irq_skip = true :=
  (set_mode_irq_skip env_ok { phy_cold with irq_skip := false }
    S3FWRN5_MODE_FW).1 (by decide)

/-! ## Read path -/

/-- The read path, by the outcome of its external calls. -/
theorem read_eq (env : Env) (phy : s3fwrn5_i2c_phy) :
    s3fwrn5_i2c_read env phy =
      if hdr_ret env phy < 0 then
        { ret := hdr_ret env phy
          trace := [Event.i2c_master_recv (hdr_size phy.common.mode)
            (hdr_ret env phy) (hdr_buf env phy)] }
      else if to_size_t (hdr_ret env phy) < hdr_size phy.common.mode then
        { ret := - EBADMSG
          trace := [Event.i2c_master_recv (hdr_size phy.common.mode)
            (hdr_ret env phy) (hdr_buf env phy)] }
      else if env.alloc_skb (hdr_size phy.common.mode + payload_len env phy)
          = false then
        { ret := - ENOMEM
          trace := [Event.i2c_master_recv (hdr_size phy.common.mode)
            (hdr_ret env phy) (hdr_buf env phy),
            Event.alloc_skb (hdr_size phy.common.mode + payload_len env phy)
              false] }
      else if payload_len env phy = 0 then
        { ret := (env.s3fwrn5_recv_frame phy.common.ndev (hdr_buf env phy)
            phy.common.mode).val
          trace := [Event.i2c_master_recv (hdr_size phy.common.mode)
            (hdr_ret env phy) (hdr_buf env phy),
            Event.alloc_skb (hdr_size phy.common.mode + payload_len env phy)
              true,
            Event.s3fwrn5_recv_frame phy.common.ndev (hdr_buf env phy)
              phy.common.mode
              (env.s3fwrn5_recv_frame phy.common.ndev (hdr_buf env phy)
                phy.common.mode).val] }
      else if to_size_t (payload_ret env phy) ≠ payload_len env phy then
        { ret := - EBADMSG
          trace := [Event.i2c_master_recv (hdr_size phy.common.mode)
            (hdr_ret env phy) (hdr_buf env phy),
            Event.alloc_skb (hdr_size phy.common.mode + payload_len env phy)
              true,
            Event.i2c_master_recv (payload_len env phy) (payload_ret env phy)
              (payload_buf env phy),
            Event.kfree_skb] }
      else
        { ret := (env.s3fwrn5_recv_frame phy.common.ndev
            (hdr_buf env phy ++ payload_buf env phy) phy.common.mode).val
          trace := [Event.i2c_master_recv (hdr_size phy.common.mode)
            (hdr_ret env phy) (hdr_buf env phy),
            Event.alloc_skb (hdr_size phy.common.mode + payload_len env phy)
              true,
            Event.i2c_master_recv (payload_len env phy) (payload_ret env phy)
              (payload_buf env phy),
            Event.s3fwrn5_recv_frame phy.common.ndev
              (hdr_buf env phy ++ payload_buf env phy) phy.common.mode
              (env.s3fwrn5_recv_frame phy.common.ndev
                (hdr_buf env phy ++ payload_buf env phy)
                phy.common.mode).val] } :=
  rfl

theorem hdr_ret_full_iff (env : Env) (phy : s3fwrn5_i2c_phy)
    (h0 : ¬ hdr_ret env phy < 0) :
    ¬ to_size_t (hdr_ret env phy) < hdr_size phy.common.mode ↔
      (hdr_size phy.common.mode : Int) ≤ hdr_ret env phy := by
  unfold hdr_ret at h0 ⊢
  rw [to_size_t_lt_iff _ _ (by omega)]
  omega

theorem payload_ret_eq_iff (env : Env) (phy : s3fwrn5_i2c_phy) :
    to_size_t (payload_ret env phy) = payload_len env phy ↔
      payload_ret env phy = (payload_len env phy : Int) := by
  unfold payload_ret
  exact to_size_t_eq_iff _ _ (data_len_lt _ _ _)

/-- C4: in NCI mode (3-byte header, length in its last byte) and in firmware
mode (4-byte header, length in its own field), when the header read returns
the full header, the header announces n > 0 payload bytes and the payload read
(issued once the frame is allocated) returns exactly n, the read path performs
these two bus reads and invokes the upper-layer callback exactly once, with
the header bytes followed by the payload bytes (header size + n bytes) and the
current mode, and returns the callback's result. -/
theorem read_delivers_frame (env : Env) (phy : s3fwrn5_i2c_phy) (n : Nat)
    (hmode : phy.common.mode = S3FWRN5_MODE_NCI ∨
      phy.common.mode = S3FWRN5_MODE_FW)
    (hfull : (hdr_size phy.common.mode : Int) ≤ hdr_ret env phy)
    (hn : 0 < n)
    (hlen : payload_len env phy = n)
    (halloc : env.alloc_skb (hdr_size phy.common.mode + n) = true)
    (hret : payload_ret env phy = (n : Int)) :
    busReads (s3fwrn5_i2c_read env phy).trace =
      [(hdr_size phy.common.mode, hdr_ret env phy, hdr_buf env phy),
       (n, (n : Int), payload_buf env phy)] ∧
    deliveries (s3fwrn5_i2c_read env phy).trace =
      [(phy.common.ndev, hdr_buf env phy ++ payload_buf env phy,
        phy.common.mode)] ∧
    (hdr_buf env phy ++ payload_buf env phy).length =
      hdr_size phy.common.mode + n ∧
    (s3fwrn5_i2c_read env phy).ret =
      (env.s3fwrn5_recv_frame phy.common.ndev
        (hdr_buf env phy ++ payload_buf env phy) phy.common.mode).val ∧
    (phy.common.mode = S3FWRN5_MODE_NCI ∧ hdr_size phy.common.mode = 3 ∧
        n = ((hdr_buf env phy).getD 2 0).val ∨
      phy.common.mode = S3FWRN5_MODE_FW ∧ hdr_size phy.common.mode = 4 ∧
        n = (env.fw_header_len (hdr_buf env phy)).val) := by
  have hlay : phy.common.mode = S3FWRN5_MODE_NCI ∧ hdr_size phy.common.mode = 3 ∧
        n = ((hdr_buf env phy).getD 2 0).val ∨
      phy.common.mode = S3FWRN5_MODE_FW ∧ hdr_size phy.common.mode = 4 ∧
        n = (env.fw_header_len (hdr_buf env phy)).val := by
    rw [← hlen]
    unfold payload_len
    rcases hmode with hm | hm
    · left
      simp [hm, hdr_size, data_len, nci_ctrl_hdr_plen, NCI_CTRL_HDR_SIZE]
    · right
      simp [hm, hdr_size, data_len, S3FWRN5_FW_HDR_SIZE]
  have h1 : ¬ hdr_ret env phy < 0 := by omega
  have h2 := (hdr_ret_full_iff env phy h1).2 hfull
  have h3 : ¬ env.alloc_skb (hdr_size phy.common.mode + payload_len env phy)
      = false := by
    rw [hlen, halloc]
    simp
  have h4 : ¬ payload_len env phy = 0 := by omega
  have h5 : ¬ to_size_t (payload_ret env phy) ≠ payload_len env phy := by
    rw [not_not, payload_ret_eq_iff, hret, hlen]
  rw [read_eq, if_neg h1, if_neg h2, if_neg h3, if_neg h4, if_neg h5]
  refine ⟨?_, ?_, ?_, rfl, hlay⟩
  · simp [busReads, hlen, hret]
  · simp [deliveries]
  · simp [hdr_buf, payload_buf, fill_length, hlen]

/-- Witness for C4: NCI mode, the header announces 5 bytes and the bus returns
5 payload bytes. -/
theorem read_delivers_frame_witness :
    deliveries (s3fwrn5_i2c_read env_ok phy_nci).trace =
      [(some 1, [0x60, 0x00, 0x05, 1, 2, 3, 4, 5], S3FWRN5_MODE_NCI)] ∧
    (s3fwrn5_i2c_read env_ok phy_nci).ret = 0 :=
  have h := read_delivers_frame env_ok phy_nci 5 (Or.inl rfl) (by decide)
    (by decide) (by decide) (by decide) (by decide)
  ⟨h.2.1, h.2.2.2.1⟩

/-- C5 fails: the header read returns the full header-only NCI header
`40 01 00`, but the allocation of the frame fails; the read path returns the
out of memory error and the callback is not invoked. -/
theorem read_header_only_nomem :
    hdr_ret env_nomem phy_nci = 3 ∧
    hdr_size phy_nci.common.mode = 3 ∧
    payload_len env_nomem phy_nci = 0 ∧
    (s3fwrn5_i2c_read env_nomem phy_nci).ret = - ENOMEM ∧
    deliveries (s3fwrn5_i2c_read env_nomem phy_nci).trace = [] := by
  decide

/-- C5, as the code has it: when the header read returns a full header whose
length field is 0, the read path performs no further bus read; if the frame
allocation succeeds it delivers exactly the header bytes read (frame length =
header size) and returns the callback's result; if the allocation fails it
returns the out of memory error and delivers nothing. -/
theorem read_header_only (env : Env) (phy : s3fwrn5_i2c_phy)
    (hfull : (hdr_size phy.common.mode : Int) ≤ hdr_ret env phy)
    (hzero : payload_len env phy = 0) :
    busReads (s3fwrn5_i2c_read env phy).trace =
      [(hdr_size phy.common.mode, hdr_ret env phy, hdr_buf env phy)] ∧
    (hdr_buf env phy).length = hdr_size phy.common.mode ∧
    (env.alloc_skb (hdr_size phy.common.mode) = true →
      deliveries (s3fwrn5_i2c_read env phy).trace =
        [(phy.common.ndev, hdr_buf env phy, phy.common.mode)] ∧
      (s3fwrn5_i2c_read env phy).ret =
        (env.s3fwrn5_recv_frame phy.common.ndev (hdr_buf env phy)
          phy.common.mode).val) ∧
    (env.alloc_skb (hdr_size phy.common.mode) = false →
      deliveries (s3fwrn5_i2c_read env phy).trace = [] ∧
      (s3fwrn5_i2c_read env phy).ret = - ENOMEM) := by
  have h1 : ¬ hdr_ret env phy < 0 := by omega
  have h2 := (hdr_ret_full_iff env phy h1).2 hfull
  rw [read_eq, if_neg h1, if_neg h2, hzero]
  cases halloc : env.alloc_skb (hdr_size phy.common.mode) <;>
    simp [halloc, busReads, deliveries, hdr_buf, fill_length]

/-- Witness for the amended C5: the header-only NCI header `40 01 00`. -/
theorem read_header_only_witness :
    deliveries (s3fwrn5_i2c_read env_header_only phy_nci).trace =
      [(some 1, [0x40, 0x01, 0x00], S3FWRN5_MODE_NCI)] :=
  ((read_header_only env_header_only phy_nci (by decide) (by decide)).2.2.1
    (by decide)).1

/-- C6: when the header announces n > 0 payload bytes and the payload read
returns anything but n (fewer bytes, more bytes, an error), the read path
returns the bad message error and the callback is not invoked; the callback is
invoked only after a header read that returned at least the header size and,
if the header announces a payload, a payload read that returned exactly the
announced length. -/
theorem read_malformed_payload (env : Env) (phy : s3fwrn5_i2c_phy) :
    (∀ (hdr payload : List Byte) (r0 r1 : Int) (n : Nat),
      0 < n →
      data_len env phy.common.mode hdr = n →
      busReads (s3fwrn5_i2c_read env phy).trace =
        [(hdr_size phy.common.mode, r0, hdr), (n, r1, payload)] →
      r1 ≠ (n : Int) →
      (s3fwrn5_i2c_read env phy).ret = - EBADMSG ∧
      deliveries (s3fwrn5_i2c_read env phy).trace = []) ∧
    (deliveries (s3fwrn5_i2c_read env phy).trace ≠ [] →
      ∃ (hdr : List Byte) (r0 : Int),
        (hdr_size phy.common.mode : Int) ≤ r0 ∧
        (busReads (s3fwrn5_i2c_read env phy).trace =
            [(hdr_size phy.common.mode, r0, hdr)] ∧
          data_len env phy.common.mode hdr = 0 ∨
         ∃ payload : List Byte,
          busReads (s3fwrn5_i2c_read env phy).trace =
            [(hdr_size phy.common.mode, r0, hdr),
             (data_len env phy.common.mode hdr,
              (data_len env phy.common.mode hdr : Int), payload)])) := by
  constructor
  · intro hdr payload r0 r1 n hn hlen hreads hne
    rw [read_eq] at hreads ⊢
    split_ifs at hreads ⊢ with h1 h2 h3 h4 h5
    · simp [busReads] at hreads
    · simp [busReads] at hreads
    · simp [busReads] at hreads
    · simp [busReads] at hreads
    · exact ⟨rfl, by simp [deliveries]⟩
    · exfalso
      simp only [busReads, List.cons.injEq, Prod.mk.injEq, and_true] at hreads
      obtain ⟨-, hl, hr, -⟩ := hreads
      rw [not_not, payload_ret_eq_iff] at h5
      exact hne (by rw [← hr, h5, hl])
  · intro hdel
    rw [read_eq] at hdel ⊢
    split_ifs at hdel ⊢ with h1 h2 h3 h4 h5
    · simp [deliveries] at hdel
    · simp [deliveries] at hdel
    · simp [deliveries] at hdel
    · exact ⟨hdr_buf env phy, hdr_ret env phy, (hdr_ret_full_iff env phy h1).1 h2,
        Or.inl ⟨by simp [busReads], h4⟩⟩
    · simp [deliveries] at hdel
    · rw [not_not, payload_ret_eq_iff] at h5
      refine ⟨hdr_buf env phy, hdr_ret env phy,
        (hdr_ret_full_iff env phy h1).1 h2, Or.inr ⟨payload_buf env phy, ?_⟩⟩
      simp only [busReads]
      rw [h5]
      rfl

/-- Witness for C6: the header announces 5 bytes and the payload read returns
2; the read path fails with the bad message error and delivers nothing. -/
theorem read_malformed_payload_witness :
    (s3fwrn5_i2c_read env_short phy_nci).ret = -74 ∧
    deliveries (s3fwrn5_i2c_read env_short phy_nci).trace = [] :=
  (read_malformed_payload env_short phy_nci).1 [0x60, 0x00, 0x05]
    [1, 2, 0, 0, 0] 3 2 5 (by decide) (by decide) (by decide) (by decide)

end S3fwrn5

/-! # Properties of the software-node GPIO helpers -/

namespace GpioSwnode

open S3fwrn5 (CInt INT_MAX INT_MIN)

/-- The counting loop started at `count` when the next `d` indices resolve and
index `count + d` does not. -/
theorem count_loop_spec (env : Env) (fwnode : Option fwnode_handle)
    (prop : String) :
    ∀ (d count fuel : Nat),
      (∀ i, count ≤ i → i < count + d →
        (env.fwnode_property_get_reference_args fwnode prop 0 i).1.val = 0) →
      (env.fwnode_property_get_reference_args fwnode prop 0 (count + d)).1.val ≠ 0 →
      ((count + d : Nat) : Int) ≤ INT_MAX →
      d < fuel →
      swnode_gpio_count_loop env fwnode prop fuel count =
        (LoopEnd.done (count + d),
         (List.range' count (d + 1)).map (fun i => (prop, 0, i))) := by
  intro d
  induction d with
  | zero =>
    intro count fuel _ hfail _ hfuel
    obtain ⟨f, rfl⟩ : ∃ f, fuel = f + 1 := ⟨fuel - 1, by omega⟩
    rw [Nat.add_zero] at hfail
    simp [swnode_gpio_count_loop, hfail]
  | succ d ih =>
    intro count fuel hres hfail hmax hfuel
    obtain ⟨f, rfl⟩ : ∃ f, fuel = f + 1 := ⟨fuel - 1, by omega⟩
    have h0 := hres count (Nat.le_refl _) (by omega)
    have hne : ¬ ((count : Int) = INT_MAX) := by
      unfold INT_MAX at hmax ⊢
      omega
    have hrec := ih (count + 1) f
      (fun i h1 h2 => hres i (by omega) (by omega))
      (by rw [show count + 1 + d = count + (d + 1) by omega]; exact hfail)
      (by rw [show count + 1 + d = count + (d + 1) by omega]; exact hmax)
      (by omega)
    rw [swnode_gpio_count_loop, if_pos h0, if_neg hne]
    dsimp only
    rw [hrec, show count + 1 + d = count + (d + 1) by omega]
    rfl

/-- The provider search finds nothing exactly when no registered provider
carries the name as its label, and what it finds carries that label. -/
theorem gpiochip_find_match_name (env : Env) (name : String) :
    (gpiochip_find env name swnode_gpiochip_match_name = none ↔
      ∀ chip ∈ env.chips, chip.label ≠ name) ∧
    (∀ chip, gpiochip_find env name swnode_gpiochip_match_name = some chip →
      chip ∈ env.chips ∧ chip.label = name) := by
  unfold gpiochip_find swnode_gpiochip_match_name
  constructor
  · rw [List.find?_eq_none]
    constructor
    · intro h chip hc hl
      exact h chip hc (by simp [hl])
    · intro h chip hc
      simp [h chip hc]
  · intro chip h
    refine ⟨List.mem_of_find?_eq_some h, ?_⟩
    have := List.find?_some h
    by_contra hne
    simp [hne] at this

/-- C10 fails: for a consumer node that is not a software node the lookup
returns the invalid argument error, not the no such entry error. -/
theorem swnode_find_gpio_not_swnode :
    to_software_node (some (fwnode_handle.firmware 3)) = none ∧
    (swnode_find_gpio env_example (some (fwnode_handle.firmware 3))
      (some "wake") 0 0).ret = DescPtr.ERR_PTR (- EINVAL) ∧
    (swnode_find_gpio env_example (some (fwnode_handle.firmware 3))
      (some "wake") 0 0).ret ≠ DescPtr.ERR_PTR (- ENOENT) := by
  decide

/-- C10, as the code has it: the lookup fails with the invalid argument error
if the consumer node is not a software node; otherwise it returns the error of
the property layer if the reference at the index, with two arguments, cannot
be parsed; otherwise it fails with the invalid argument error if the
referenced node is not a software node or has no name; otherwise it fails with
the deferred probe error if no registered provider carries the referenced
node's name as label; otherwise it returns the line that the GPIO core gives
for the first argument on the first provider with that label, and stores the
second argument as flags.  On every failure the flags are left as they
were. -/
theorem swnode_find_gpio_spec (env : Env) (fwnode : Option fwnode_handle)
    (con_id : Option String) (idx flags : Nat) :
    (to_software_node fwnode = none →
      swnode_find_gpio env fwnode con_id idx flags =
        { ret := DescPtr.ERR_PTR (- EINVAL), flags := flags }) ∧
    (to_software_node fwnode ≠ none →
      ((env.fwnode_property_get_reference_args fwnode
          (prop_name con_id) 2 idx).1.val ≠ 0 →
        swnode_find_gpio env fwnode con_id idx flags =
          { ret := DescPtr.ERR_PTR (env.fwnode_property_get_reference_args fwnode
              (prop_name con_id) 2 idx).1.val
            flags := flags }) ∧
      ((env.fwnode_property_get_reference_args fwnode
          (prop_name con_id) 2 idx).1.val = 0 →
        ((to_software_node (env.fwnode_property_get_reference_args fwnode
              (prop_name con_id) 2 idx).2.fwnode = none ∨
            ∃ node, to_software_node (env.fwnode_property_get_reference_args fwnode
              (prop_name con_id) 2 idx).2.fwnode = some node ∧ node.name = none) →
          swnode_find_gpio env fwnode con_id idx flags =
            { ret := DescPtr.ERR_PTR (- EINVAL), flags := flags }) ∧
        (∀ node name,
          to_software_node (env.fwnode_property_get_reference_args fwnode
            (prop_name con_id) 2 idx).2.fwnode = some node →
          node.name = some name →
          ((∀ chip ∈ env.chips, chip.label ≠ name) →
            swnode_find_gpio env fwnode con_id idx flags =
              { ret := DescPtr.ERR_PTR (- EPROBE_DEFER), flags := flags }) ∧
          (∀ chip, env.chips.find? (fun c => decide (c.label = name)) = some chip →
            swnode_find_gpio env fwnode con_id idx flags =
              { ret := env.gpiochip_get_desc chip
                  ((env.fwnode_property_get_reference_args fwnode
                    (prop_name con_id) 2 idx).2.args 0)
                flags := (env.fwnode_property_get_reference_args fwnode
                    (prop_name con_id) 2 idx).2.args 1 })))) := by
  have hfind : ∀ name, gpiochip_find env name swnode_gpiochip_match_name =
      env.chips.find? (fun c => decide (c.label = name)) := by
    intro name
    unfold gpiochip_find swnode_gpiochip_match_name
    congr 1
    funext c
    by_cases h : c.label = name <;> simp [h]
  refine ⟨?_, ?_⟩
  · intro h
    unfold swnode_find_gpio
    rw [h]
  · intro h
    obtain ⟨sw, hsw⟩ := Option.ne_none_iff_exists'.mp h
    refine ⟨?_, ?_⟩
    · intro herr
      unfold swnode_find_gpio
      rw [hsw]
      simp only [ne_eq, herr, not_false_eq_true, if_true]
    · intro hok
      refine ⟨?_, ?_⟩
      · intro hbad
        unfold swnode_find_gpio
        rw [hsw]
        simp only [ne_eq, hok, not_true_eq_false, if_false]
        rcases hbad with hnone | ⟨node, hnode, hname⟩
        · rw [hnone]
        · rw [hnode]
          simp only [hname]
      · intro node name hnode hname
        refine ⟨?_, ?_⟩
        · intro hno
          have hnf := (gpiochip_find_match_name env name).1.2 hno
          unfold swnode_find_gpio
          rw [hsw]
          simp only [ne_eq, hok, not_true_eq_false, if_false]
          rw [hnode]
          simp only [hname, hnf]
        · intro chip hchip
          rw [← hfind] at hchip
          unfold swnode_find_gpio
          rw [hsw]
          simp only [ne_eq, hok, not_true_eq_false, if_false]
          rw [hnode]
          simp only [hname, hchip]

/-- Witness for the amended C10: the second reference of "wake-gpios" resolves
to line 6 of "gpio-a" with flags 0. -/
theorem swnode_find_gpio_spec_witness :
    swnode_find_gpio env_example (some consumer) (some "wake") 1 99 =
      { ret := DescPtr.desc { chip := chip_a, hwnum := 6 }, flags := 0 } :=
  ((((swnode_find_gpio_spec env_example (some consumer) (some "wake") 1 99).2
    (by decide)).2 (by decide)).2 { name := some "gpio-a" } "gpio-a"
    (by decide) (by decide)).2 chip_a (by decide)

end GpioSwnode
